import Mathlib

/-!
Verification model of the Xornet front-end client's request/response core.

The embedding translates, from the source:
  * `src/client/src/services/api/index.js` (the `API`, `User`, `Machine`,
    `Datacenter` classes): URL construction, the `request` dispatcher with its
    error capture and error-event emission, `login`, `signup`,
    `fetchMachineCount`;
  * `src/client/src/services/socket.js`: the realtime channel bootstrap.

JavaScript run-time values are modelled by `JsVal` (the JSON-compatible
fragment the client exchanges: `undefined`, `null`, booleans, integers,
strings and objects; the reviewed code paths never rely on arrays, floats or
functions).  Exceptions are modelled by `Except JsVal`, promises by their
settled outcome (`Except rejected resolved`), and the platform built-ins
`JSON.parse`, `JSON.stringify`, string coercion and `localStorage` are given
executable models covering the behaviour the client exercises.
-/

/-- A JavaScript value, restricted to the JSON-compatible fragment the client
exchanges with its backend.  Object fields are kept in insertion order; a
later entry with the same key shadows an earlier one (as after a spread). -/
inductive JsVal where
  | undefined : JsVal
  | null : JsVal
  | bool : Bool → JsVal
  | num : Int → JsVal
  | str : String → JsVal
  | obj : List (String × JsVal) → JsVal
deriving Repr

/-- JavaScript truthiness (`if (v)`): `undefined`, `null`, `false`, `0` and
the empty string are falsy, everything else (objects included) is truthy. -/
def truthy : JsVal → Bool
  | .undefined => false
  | .null => false
  | .bool b => b
  | .num n => n != 0
  | .str s => !s.isEmpty
  | .obj _ => true

/-- Property lookup on a value that is known not to throw: on an object the
last binding of the key wins (spread semantics); on any other value the
properties the client reads are absent, giving `undefined`. -/
def getField (v : JsVal) (key : String) : JsVal :=
  match v with
  | .obj fields => fields.foldl (fun acc kv => if kv.1 = key then kv.2 else acc) .undefined
  | _ => .undefined

/-- Optional chaining `v?.key`: `undefined` when the receiver is nullish. -/
def optChain (v : JsVal) (key : String) : JsVal :=
  match v with
  | .undefined => .undefined
  | .null => .undefined
  | _ => getField v key

/-- The `TypeError` thrown by a property read on `undefined`/`null`. -/
def typeError (key : String) : JsVal :=
  .obj [("name", .str "TypeError"), ("message", .str key)]

/-- Plain property access `v.key`, which throws a `TypeError` when the
receiver is nullish. -/
def jsGet (v : JsVal) (key : String) : Except JsVal JsVal :=
  match v with
  | .undefined => .error (typeError key)
  | .null => .error (typeError key)
  | _ => .ok (getField v key)

/-- JavaScript `ToString` coercion, as applied by template literals and by
`localStorage.setItem`.  A plain object coerces to `"[object Object]"`. -/
def jsToString : JsVal → String
  | .undefined => "undefined"
  | .null => "null"
  | .bool b => if b then "true" else "false"
  | .num n => toString n
  | .str s => s
  | .obj _ => "[object Object]"

/-- Object-literal spread `{...v}`: an object contributes its fields, a
string its indexed characters, every other primitive contributes nothing. -/
def jsSpread : JsVal → List (String × JsVal)
  | .obj fields => fields
  | .str s => (List.range s.length).zip (s.toList.map (fun c => JsVal.str c.toString))
      |>.map (fun p => (toString p.1, p.2))
  | _ => []

/-! ### Model of `JSON.stringify` -/

mutual

/-- Model of `JSON.stringify` on the fragment in use: `none` models the
built-in returning `undefined` (on an `undefined` argument); string escaping
is not modelled (the client's stored values contain no characters needing
escapes). -/
def jsonStringify : JsVal → Option String
  | .undefined => none
  | .null => some "null"
  | .bool b => some (if b then "true" else "false")
  | .num n => some (toString n)
  | .str s => some ("\"" ++ s ++ "\"")
  | .obj fields => some ("\x7b" ++ String.intercalate "," (jsonStringifyFields fields) ++ "\x7d")

/-- Field list serialization for `jsonStringify`; fields whose value
stringifies to `undefined` are skipped, as the built-in does. -/
def jsonStringifyFields : List (String × JsVal) → List String
  | [] => []
  | (k, v) :: rest =>
    match jsonStringify v with
    | none => jsonStringifyFields rest
    | some sv => ("\"" ++ k ++ "\":" ++ sv) :: jsonStringifyFields rest

end

/-! ### Model of `JSON.parse` -/

/-- The opening brace character, kept out of literals. -/
def lbrace : Char := Char.ofNat 123

/-- The closing brace character, kept out of literals. -/
def rbrace : Char := Char.ofNat 125

/-- Skip JSON whitespace. -/
def skipWs : List Char → List Char
  | c :: rest => if c = ' ' || c = '\n' || c = '\t' || c = '\r' then skipWs rest else c :: rest
  | [] => []

/-- Parse the body of a JSON string after its opening quote; escape sequences
are rejected (the client's parsed payloads contain none). -/
def parseStringBody : List Char → Option (String × List Char)
  | [] => none
  | c :: rest =>
    if c = '"' then some ("", rest)
    else if c = '\\' then none
    else
      match parseStringBody rest with
      | some (s, r) => some (c.toString ++ s, r)
      | none => none

/-- Consume leading decimal digits, accumulating their value. -/
def parseNatAcc (acc : Nat) : List Char → Nat × List Char
  | c :: rest => if c.isDigit then parseNatAcc (acc * 10 + (c.toNat - 48)) rest else (acc, c :: rest)
  | [] => (acc, [])

mutual

/-- Fuel-indexed recursive-descent parser for the JSON fragment in use
(strings, integers, booleans, `null`, objects).  The fuel only bounds
recursion depth; `jsonParse` supplies more fuel than any input can consume. -/
def parseVal : Nat → List Char → Option (JsVal × List Char)
  | 0, _ => none
  | fuel + 1, cs =>
    match skipWs cs with
    | [] => none
    | c :: rest =>
      if c = '"' then
        match parseStringBody rest with
        | some (s, r) => some (.str s, r)
        | none => none
      else if c = 't' then
        match rest with
        | 'r' :: 'u' :: 'e' :: r => some (.bool true, r)
        | _ => none
      else if c = 'f' then
        match rest with
        | 'a' :: 'l' :: 's' :: 'e' :: r => some (.bool false, r)
        | _ => none
      else if c = 'n' then
        match rest with
        | 'u' :: 'l' :: 'l' :: r => some (.null, r)
        | _ => none
      else if c = lbrace then
        match parseObjFields fuel rest with
        | some (fields, r) => some (.obj fields, r)
        | none => none
      else if c = '-' then
        match rest with
        | d :: ds =>
          if d.isDigit then
            match parseNatAcc (d.toNat - 48) ds with
            | (n, r) => some (.num (-(n : Int)), r)
          else none
        | [] => none
      else if c.isDigit then
        match parseNatAcc (c.toNat - 48) rest with
        | (n, r) => some (.num (n : Int), r)
      else none

/-- Parse the fields of a JSON object, the opening brace already consumed. -/
def parseObjFields : Nat → List Char → Option (List (String × JsVal) × List Char)
  | 0, _ => none
  | fuel + 1, cs =>
    match skipWs cs with
    | [] => none
    | c :: rest =>
      if c = rbrace then some ([], rest)
      else if c = '"' then
        match parseStringBody rest with
        | some (k, r1) =>
          match skipWs r1 with
          | ':' :: r2 =>
            match parseVal fuel r2 with
            | some (v, r3) =>
              match skipWs r3 with
              | c2 :: r4 =>
                if c2 = ',' then
                  match parseObjFields fuel r4 with
                  | some (fs, r) => some ((k, v) :: fs, r)
                  | none => none
                else if c2 = rbrace then some ([(k, v)], r4)
                else none
              | [] => none
            | none => none
          | _ => none
        | none => none
      else none

end

/-- Model of `JSON.parse` on a string: `none` models a thrown
`SyntaxError`. -/
def jsonParse (s : String) : Option JsVal :=
  match parseVal (s.length + 1) s.toList with
  | some (v, rest) => if (skipWs rest).isEmpty then some v else none
  | none => none

/-- The `SyntaxError` thrown by `JSON.parse` on unparsable input. -/
def syntaxError : JsVal :=
  .obj [("name", .str "SyntaxError"), ("message", .str "Unexpected token")]

/-- `JSON.parse` as called on an arbitrary value: the argument is first
coerced to a string (an object becomes `"[object Object]"`, which does not
parse), and failure throws a `SyntaxError`. -/
def jsonParseJs (v : JsVal) : Except JsVal JsVal :=
  match jsonParse (jsToString v) with
  | some r => .ok r
  | none => .error syntaxError

/-! ### Model of `localStorage` -/

/-- `localStorage`: a string-keyed map of strings, most recent write first. -/
abbrev Storage := List (String × String)

/-- `localStorage.setItem`, coercing the stored value to a string. -/
def setItem (s : Storage) (key : String) (v : JsVal) : Storage :=
  (key, jsToString v) :: s

/-- `localStorage.getItem` as the stored string, when present. -/
def getItemS (s : Storage) (key : String) : Option String :=
  (s.find? (fun kv => kv.1 == key)).map (·.2)

/-- `localStorage.getItem` as the JavaScript value the call returns:
the stored string, or `null` when the key is absent. -/
def getItemJs (s : Storage) (key : String) : JsVal :=
  match getItemS s key with
  | some v => .str v
  | none => .null

/-- ASCII upper-casing of one character. -/
def asciiUpper (c : Char) : Char :=
  if 97 ≤ c.toNat ∧ c.toNat ≤ 122 then Char.ofNat (c.toNat - 32) else c

/-- Model of `String.prototype.toUpperCase()` on the ASCII method names the
client passes. -/
def jsToUpperCase (s : String) : String :=
  String.mk (s.data.map asciiUpper)

/-! ### The `API` class (`services/api/index.js`) -/

/-- The fixed backend origin (`ROOT_PATH` in the source). -/
def ROOT_PATH : String := "https://backend.xornet.cloud"

/-- `API.constructEndpoint(route)`: template literal joining the origin and
the route with a single slash. -/
def constructEndpoint (route : String) : String :=
  ROOT_PATH ++ "/" ++ route

/-- One `eventHandler.emit("error", { method, messages })` broadcast by
`API.error`. -/
structure Emission where
  method : String
  messages : List JsVal
deriving Repr

/-- One invocation of the underlying HTTP transport (`axios[method](...)`):
the verb, the full URL, the second positional argument (the request options
for GET/DELETE, the payload for the other verbs) and the third positional
argument (the options for POST/PUT/PATCH, absent for GET/DELETE). -/
structure AxiosCall where
  verb : String
  url : String
  arg2 : JsVal
  arg3 : JsVal
deriving Repr

/-- The transport: a single `axios` call either resolves with a response
value (an object carrying `status` and `data`) or rejects with an error
value. -/
abbrev Transport := AxiosCall → Except JsVal JsVal

/-- The observable result of one `request` invocation: the settled outcome
of its promise (`.error` would mean an exception escaped `request`'s own
boundary), the transport calls it issued, and the error-event emissions it
broadcast.  Console logging is not tracked: no claim concerns it. -/
structure ReqResult where
  outcome : Except JsVal JsVal
  calls : List AxiosCall
  emissions : List Emission
deriving Repr

/-- `API.error(method, ...messages)`: broadcasts
`eventHandler.emit("error", { method, messages })`. -/
def apiError (method : String) (messages : List JsVal) : List Emission :=
  [⟨method, messages⟩]

/-- `API.logError(method, response)`: picks `response.data?.message`, else
`response?.data`, else `response` itself, and passes it to `API.error`; a
falsy `response` is ignored.  Returns the emissions broadcast. -/
def logError (method : String) (response : JsVal) : List Emission :=
  if !truthy response then []
  else if truthy (optChain (getField response "data") "message") then
    apiError method [optChain (getField response "data") "message"]
  else if truthy (optChain response "data") then
    apiError method [optChain response "data"]
  else
    apiError method [response]

/-- The default options object `{ withCredentials: true, headers }` built by
`request` for GET/DELETE when no body is supplied. -/
def defaultOptions (headers : JsVal) : JsVal :=
  .obj [("withCredentials", .bool true), ("headers", headers)]

/-- The settling of one dispatched `axios` promise under
`.catch(error => this.logError(errName, error))`: a rejection is caught,
logged (broadcasting through `logError`) and replaced by the catch
handler's return value — `undefined`, since `logError` returns nothing. -/
def settle (errName : String) (r : Except JsVal JsVal) :
    Except JsVal JsVal × List Emission :=
  match r with
  | .ok resp => (.ok resp, [])
  | .error e => (.ok .undefined, logError errName e)

/-- `API.request(method, route, headers, body)`, from the source:

  * for `get`/`delete`, calls `axios[method](url, body || defaultOptions)`;
  * otherwise, calls `axios[method](url, body || undefined,
    { withCredentials: true, headers })`;
  * a transport rejection is settled by the `.catch` handler into
    `undefined` (see `settle`);
  * the (possibly `undefined`) response is logged and returned; `request`
    itself never throws. -/
def request (transport : Transport) (method route : String)
    (headers body : JsVal) : ReqResult :=
  let url := constructEndpoint route
  let errName := jsToUpperCase method ++ " " ++ route
  if method = "get" || method = "delete" then
    let call : AxiosCall :=
      ⟨method, url, (if truthy body then body else defaultOptions headers), .undefined⟩
    let s := settle errName (transport call)
    ⟨s.1, [call], s.2⟩
  else
    let call : AxiosCall :=
      ⟨method, url, (if truthy body then body else .undefined), defaultOptions headers⟩
    let s := settle errName (transport call)
    ⟨s.1, [call], s.2⟩

/-! ### The `Datacenter` class -/

/-- `Datacenter.fetchMachineCount(datacenter)`: a falsy identifier skips the
body entirely (returning `undefined`); otherwise the route is interpolated
and the awaited response is unwrapped with `.data` (a plain access that
throws if `request` resolved with `undefined`). -/
def fetchMachineCount (transport : Transport) (datacenter : JsVal) : ReqResult :=
  if truthy datacenter then
    let r := request transport "get"
      ("datacenter/" ++ jsToString datacenter ++ "/machine/count") .undefined .undefined
    match r.outcome with
    | .error e => ⟨.error e, r.calls, r.emissions⟩
    | .ok resp =>
      match jsGet resp "data" with
      | .error e => ⟨.error e, r.calls, r.emissions⟩
      | .ok d => ⟨.ok d, r.calls, r.emissions⟩
  else
    ⟨.ok .undefined, [], []⟩

/-! ### The `User` class -/

/-- `API.getGeolocation()`: reshapes the IP-lookup response data
(`{country, country_code, isp}`) into `{location, countryCode, isp}`.  The
lookup's response data is a parameter of the model; its own transport call
and failure mode are outside every claim. -/
def getGeolocation (lookupData : JsVal) : JsVal :=
  .obj [("location", getField lookupData "country"),
        ("countryCode", getField lookupData "country_code"),
        ("isp", getField lookupData "isp")]

/-- The `{ "Content-Type": "application/json" }` headers object. -/
def contentTypeJson : JsVal :=
  .obj [("Content-Type", .str "application/json")]

/-- The observable result of one `login` invocation: the settled outcome of
the promise it returns (`.ok` resolved / `.error` rejected), the final
`localStorage` contents, and the transport calls and error emissions of the
backend call it made. -/
structure LoginResult where
  outcome : Except JsVal JsVal
  storage : Storage
  calls : List AxiosCall
  emissions : List Emission
deriving Repr

/-- `User.login(json)`, from the source: builds
`{ geolocation: await getGeolocation(), ...JSON.parse(json) }`, posts it to
`login`, persists `token`, `username` and `me`, and resolves with
`response.status`; any exception in the `try` block is caught and the
promise is rejected with `error.status` (a plain access on the caught error
object). -/
def login (lookupData : JsVal) (transport : Transport) (s0 : Storage)
    (json : JsVal) : LoginResult :=
  match jsonParseJs json with
  | .error err =>
    ⟨.error (getField err "status"), s0, [], []⟩
  | .ok parsed =>
    let loginForm : JsVal :=
      .obj (("geolocation", getGeolocation lookupData) :: jsSpread parsed)
    let r := request transport "post" "login" contentTypeJson loginForm
    match r.outcome with
    | .error e => ⟨.error (getField e "status"), s0, r.calls, r.emissions⟩
    | .ok response =>
      match jsGet response "data" with
      | .error e => ⟨.error (getField e "status"), s0, r.calls, r.emissions⟩
      | .ok dat =>
        match jsGet dat "token" with
        | .error e => ⟨.error (getField e "status"), s0, r.calls, r.emissions⟩
        | .ok tok =>
          let s1 := setItem s0 "token" tok
          let s2 := setItem s1 "username" (getField loginForm "username")
          let me := getField dat "me"
          let s3 := setItem s2 "me"
            (match jsonStringify me with
             | some str => .str str
             | none => .undefined)
          ⟨.ok (getField response "status"), s3, r.calls, r.emissions⟩

/-- `User.signup(json)`, from the source: builds
`{ geolocation: await getGeolocation(), ...json }` (no `JSON.parse` here)
and returns the result of `request` unchanged — deliberately not unwrapping
`.data`, so the caller can branch on the status code. -/
def signup (lookupData : JsVal) (transport : Transport) (json : JsVal) : ReqResult :=
  let signupForm : JsVal :=
    .obj (("geolocation", getGeolocation lookupData) :: jsSpread json)
  request transport "post" "signup" contentTypeJson signupForm

/-! ### The realtime channel (`services/socket.js`) -/

/-- The authentication payload presented by the socket handshake. -/
structure SocketAuth where
  type : String
  token : JsVal
deriving Repr

/-- The configuration the socket is constructed with. -/
structure SocketConfig where
  url : String
  reconnect : Bool
  auth : SocketAuth
deriving Repr

/-- A storage-reading computation that counts its `localStorage.getItem`
calls. -/
abbrev StorageReader (α : Type) := Storage → α × Nat

/-- One counted `localStorage.getItem` call. -/
def readItem (key : String) : StorageReader JsVal :=
  fun s => (getItemJs s key, 1)

/-- Sequencing of counted storage reads. -/
def bindReader {α β : Type} (m : StorageReader α) (f : α → StorageReader β) :
    StorageReader β :=
  fun s =>
    let (a, n) := m s
    let (b, n2) := f a s
    (b, n + n2)

/-- The socket bootstrap, from `socket.js`: one call to
`io("wss://backend.xornet.cloud", { reconnect: true, auth: { type: "client",
token: localStorage.getItem("token") } })` at module load.  The two `on`
registrations only log and are not modelled. -/
def socketInit : StorageReader SocketConfig :=
  bindReader (readItem "token") fun tok =>
    fun _ => (⟨"wss://backend.xornet.cloud", true, ⟨"client", tok⟩⟩, 0)

/-! ### Concrete fixtures used by witnesses and counterexamples -/

/-- An axios response object `{ status, data }`. -/
def respObj (st : Int) (d : JsVal) : JsVal :=
  .obj [("status", .num st), ("data", d)]

/-- A transport whose every call resolves with the given response. -/
def okTransport (st : Int) (d : JsVal) : Transport :=
  fun _ => .ok (respObj st d)

/-- A transport whose every call rejects with the given error. -/
def failTransport (e : JsVal) : Transport :=
  fun _ => .error e

/-- A concrete axios-shaped transport error: a message, the failed call's
HTTP status under `response.status`, and no top-level `data` field. -/
def networkError : JsVal :=
  .obj [("message", .str "Request failed with status code 500"),
        ("response", respObj 500 .null)]

/-- The credentials `{username: "a", password: "b"}` as the JSON string the
source's `JSON.parse` expects. -/
def credJson : JsVal :=
  .str "\x7b\"username\":\"a\",\"password\":\"b\"\x7d"

/-- The same credentials as a plain object, the way claim C2 literally
writes the call. -/
def credObj : JsVal :=
  .obj [("username", .str "a"), ("password", .str "b")]

/-- A successful login response body `{token: "T", me}`. -/
def loginData (me : JsVal) : JsVal :=
  .obj [("token", .str "T"), ("me", me)]

/-! ## Theorems -/

/-- On a value that is not nullish (in particular on any truthy value),
optional chaining coincides with plain field lookup. -/
theorem optChain_of_truthy {v : JsVal} (key : String) (h : truthy v = true) :
    optChain v key = getField v key := by
  cases v <;> simp_all [optChain, truthy]

/-- Optional chaining on `undefined` yields `undefined`. -/
theorem optChain_undefined (key : String) : optChain .undefined key = .undefined := rfl

/-- `undefined` is falsy. -/
theorem truthy_undefined : truthy .undefined = false := rfl

/-- Claim C1, amended: on transport failure, `request` never raises past its
own boundary — its promise resolves.  But the resolved value is `undefined`
(the catch handler returns `logError`'s `undefined`), not the captured error
object. -/
theorem request_failure_resolves_undefined
    (transport : Transport) (method route : String) (headers body e : JsVal)
    (hfail : ∀ c, transport c = .error e) :
    (request transport method route headers body).outcome = .ok .undefined := by
  simp only [request, hfail]
  split <;> rfl

/-- Witness for `request_failure_resolves_undefined` at a concrete failing
GET. -/
theorem request_failure_resolves_undefined_witness :
    (request (failTransport networkError) "get" "test" .undefined .undefined).outcome
      = .ok .undefined :=
  request_failure_resolves_undefined (failTransport networkError) "get" "test"
    .undefined .undefined networkError (fun _ => rfl)

/-- Claim C1, counterexample to the claim as stated: at a concrete failing
GET, the value `request` resolves with is `undefined`, which is not the
captured error object. -/
theorem request_failure_value_is_not_the_error :
    (request (failTransport networkError) "get" "test" .undefined .undefined).outcome
        = .ok .undefined
      ∧ JsVal.undefined ≠ networkError :=
  ⟨rfl, fun h => JsVal.noConfusion h⟩

/-- Claim C5: a failed `request` broadcasts exactly one error event, whose
payload is the uppercased verb plus the route together with the singleton
list holding the error object (for an axios-shaped error, which carries no
top-level `data` field); a successful call broadcasts nothing. -/
theorem request_error_broadcast_exactly_once
    (method route : String) (headers body e resp : JsVal)
    (htruthy : truthy e = true) (hdata : getField e "data" = .undefined) :
    (request (failTransport e) method route headers body).emissions
        = [⟨jsToUpperCase method ++ " " ++ route, [e]⟩]
      ∧ (request (fun _ => .ok resp) method route headers body).emissions = [] := by
  constructor
  · simp only [request, failTransport]
    split <;>
      simp [settle, logError, htruthy, hdata, optChain_of_truthy _ htruthy,
        optChain_undefined, truthy_undefined, apiError]
  · simp only [request]
    split <;> rfl

/-- Witness for `request_error_broadcast_exactly_once` at a concrete POST. -/
theorem request_error_broadcast_exactly_once_witness :
    (request (failTransport networkError) "post" "login" .undefined .undefined).emissions
        = [⟨"POST login", [networkError]⟩]
      ∧ (request (fun _ => .ok (respObj 200 (.obj []))) "post" "login"
          .undefined .undefined).emissions = [] :=
  request_error_broadcast_exactly_once "post" "login" .undefined .undefined
    networkError (respObj 200 (.obj [])) rfl rfl

/-- Claim C6: a GET or DELETE issued with no explicit body passes, as the
axios options argument, the object `{ withCredentials: true, headers }`
carrying the caller's headers. -/
theorem request_get_delete_default_options
    (transport : Transport) (method route : String) (headers : JsVal)
    (hm : method = "get" ∨ method = "delete") :
    (request transport method route headers .undefined).calls
        = [⟨method, constructEndpoint route, defaultOptions headers, .undefined⟩]
      ∧ getField (defaultOptions headers) "withCredentials" = .bool true
      ∧ getField (defaultOptions headers) "headers" = headers := by
  rcases hm with rfl | rfl <;>
    exact ⟨rfl, rfl, rfl⟩

/-- Witness for `request_get_delete_default_options` at a concrete GET with
a caller-supplied headers object. -/
theorem request_get_delete_default_options_witness :
    (request (okTransport 200 (.obj [])) "get" "datacenter/all"
        contentTypeJson .undefined).calls
        = [⟨"get", constructEndpoint "datacenter/all",
            defaultOptions contentTypeJson, .undefined⟩]
      ∧ getField (defaultOptions contentTypeJson) "withCredentials" = .bool true
      ∧ getField (defaultOptions contentTypeJson) "headers" = contentTypeJson :=
  request_get_delete_default_options (okTransport 200 (.obj [])) "get"
    "datacenter/all" contentTypeJson (Or.inl rfl)

/-- Claim C7: every transport call issued by `request` targets exactly
`ROOT_PATH ++ "/" ++ route`, and the fixed origin itself does not end in a
slash, so the join introduces a single separator beyond any slash contained
in the route. -/
theorem request_url_is_origin_slash_route
    (transport : Transport) (method route : String) (headers body : JsVal) :
    ((request transport method route headers body).calls).all
        (fun c => c.url == ROOT_PATH ++ "/" ++ route) = true
      ∧ ROOT_PATH.data.getLast? ≠ some '/' := by
  refine ⟨?_, by decide⟩
  simp only [request]
  split <;> simp [constructEndpoint]

/-- Claim C8: with a falsy datacenter identifier, `fetchMachineCount`
short-circuits: it returns `undefined` without issuing any transport call
and without emitting any error. -/
theorem fetchMachineCount_falsy_short_circuits
    (transport : Transport) (datacenter : JsVal)
    (h : truthy datacenter = false) :
    fetchMachineCount transport datacenter = ⟨.ok .undefined, [], []⟩ := by
  simp [fetchMachineCount, h]

/-- Witness for `fetchMachineCount_falsy_short_circuits` at the `undefined`
identifier. -/
theorem fetchMachineCount_falsy_short_circuits_witness :
    fetchMachineCount (okTransport 200 (.num 5)) .undefined
      = ⟨.ok .undefined, [], []⟩ :=
  fetchMachineCount_falsy_short_circuits (okTransport 200 (.num 5)) .undefined rfl

/-- Claim C4: when the backend call succeeds, `signup` resolves with the
full response object — the very value carrying both `status` and `data` —
and that value is distinct from its unwrapped `data` payload (which every
other resource call would have returned), so callers can branch on the
status code. -/
theorem signup_returns_full_response
    (lookupData json d : JsVal) (st : Int) :
    (signup lookupData (okTransport st d) json).outcome = .ok (respObj st d)
      ∧ getField (respObj st d) "status" = .num st
      ∧ respObj st d ≠ d := by
  refine ⟨rfl, rfl, ?_⟩
  intro h
  have hs := congrArg sizeOf h
  simp [respObj] at hs
  omega

/-- Claim C2, counterexample to the claim as stated: calling `login` with an
object argument `{username: "a", password: "b"}` — the way the claim writes
the call — makes `JSON.parse` throw (the object coerces to
"[object Object]"), so although the mocked backend would answer
`{token: "T", me: {}}` with status 200, the promise rejects (with
`undefined`) and nothing is persisted. -/
theorem login_object_argument_rejects_and_persists_nothing :
    (login (.obj []) (okTransport 200 (loginData (.obj []))) [] credObj).outcome
        = .error .undefined
      ∧ (login (.obj []) (okTransport 200 (loginData (.obj []))) [] credObj).storage = [] :=
  ⟨rfl, rfl⟩

/-- Claim C2, amended: the credentials must be passed as the JSON *string*
the source's `JSON.parse` expects.  Calling `login` with the string
encoding of `{username: "a", password: "b"}`, against a backend answering
`{token: "T", me}` with status `st`, persists `token = "T"`,
`username = "a"` and the stringified profile under `me`, and the returned
promise resolves with the response's HTTP status code. -/
theorem login_json_string_persists_and_resolves
    (lookupData meVal : JsVal) (ms : String) (st : Int) (s0 : Storage)
    (hme : jsonStringify meVal = some ms) :
    (login lookupData (okTransport st (loginData meVal)) s0 credJson).outcome
        = .ok (.num st)
      ∧ getItemS (login lookupData (okTransport st (loginData meVal)) s0 credJson).storage
          "token" = some "T"
      ∧ getItemS (login lookupData (okTransport st (loginData meVal)) s0 credJson).storage
          "username" = some "a"
      ∧ getItemS (login lookupData (okTransport st (loginData meVal)) s0 credJson).storage
          "me" = some ms := by
  refine ⟨rfl, rfl, rfl, ?_⟩
  have h4 : getItemS (login lookupData (okTransport st (loginData meVal)) s0 credJson).storage
      "me" = some (jsToString (match jsonStringify meVal with
        | some s => JsVal.str s
        | none => JsVal.undefined)) := rfl
  rw [hme] at h4
  simpa [jsToString] using h4

/-- Witness for `login_json_string_persists_and_resolves` with the concrete
profile `{a: "b"}`. -/
theorem login_json_string_persists_and_resolves_witness :
    jsonStringify (JsVal.obj [("a", .str "b")]) = some "\x7b\"a\":\"b\"\x7d"
      ∧ ((login (.obj []) (okTransport 200 (loginData (.obj [("a", .str "b")]))) []
            credJson).outcome = .ok (.num 200)
        ∧ getItemS (login (.obj []) (okTransport 200 (loginData (.obj [("a", .str "b")])))
            [] credJson).storage "token" = some "T"
        ∧ getItemS (login (.obj []) (okTransport 200 (loginData (.obj [("a", .str "b")])))
            [] credJson).storage "username" = some "a"
        ∧ getItemS (login (.obj []) (okTransport 200 (loginData (.obj [("a", .str "b")])))
            [] credJson).storage "me" = some "\x7b\"a\":\"b\"\x7d") :=
  ⟨rfl, login_json_string_persists_and_resolves (.obj []) (.obj [("a", .str "b")])
    "\x7b\"a\":\"b\"\x7d" 200 [] rfl⟩

/-- Claim C3, counterexample: with the backend call failing with an
axios-shaped error carrying HTTP status 500 under `response.status`,
`login` rejects with `undefined` — not with the status code 500. -/
theorem login_backend_failure_rejection_is_not_status :
    (login (.obj []) (failTransport networkError) [] credJson).outcome
        = .error .undefined
      ∧ JsVal.undefined ≠ JsVal.num 500 :=
  ⟨rfl, fun h => JsVal.noConfusion h⟩

/-- Claim C3, amended: whenever the backend call made by `login` fails, the
returned promise rejects with `undefined` rather than the HTTP status code:
`request` swallows the transport error and resolves with `undefined`, the
subsequent `.data` read in `login` throws a `TypeError`, and that error's
`status` field is `undefined`.  Storage is left untouched. -/
theorem login_backend_failure_rejects_undefined
    (lookupData json e : JsVal) (s0 : Storage) :
    (login lookupData (failTransport e) s0 json).outcome = .error .undefined
      ∧ (login lookupData (failTransport e) s0 json).storage = s0 := by
  cases hp : jsonParse (jsToString json) with
  | none =>
      constructor <;> simp [login, jsonParseJs, hp, syntaxError, getField]
  | some parsed =>
      constructor <;>
        simp [login, jsonParseJs, hp, request, settle, failTransport, jsGet,
          typeError, getField, truthy]

/-- Claim C9: constructing the realtime channel reads the auth token from
persisted storage exactly once; the authentication payload presented is
`{type: "client", token}` with the value read at construction; and the
constructed channel depends only on the token stored at construction time,
so a token written to storage afterwards never reaches the existing
channel. -/
theorem socket_reads_token_once_at_construction
    (s s2 : Storage) (h : getItemJs s "token" = getItemJs s2 "token") :
    (socketInit s).2 = 1
      ∧ (socketInit s).1.auth = ⟨"client", getItemJs s "token"⟩
      ∧ socketInit s = socketInit s2 := by
  refine ⟨rfl, rfl, ?_⟩
  simp [socketInit, bindReader, readItem, h]

/-- Witness for `socket_reads_token_once_at_construction`: two storages
agreeing on `token` (one with an unrelated extra key) yield the same
channel, reading once. -/
theorem socket_reads_token_once_at_construction_witness :
    getItemJs [("token", "TOK")] "token" = getItemJs [("x", "y"), ("token", "TOK")] "token"
      ∧ ((socketInit [("token", "TOK")]).2 = 1
        ∧ (socketInit [("token", "TOK")]).1.auth = ⟨"client", getItemJs [("token", "TOK")] "token"⟩
        ∧ socketInit [("token", "TOK")] = socketInit [("x", "y"), ("token", "TOK")]) :=
  ⟨rfl, socket_reads_token_once_at_construction [("token", "TOK")]
    [("x", "y"), ("token", "TOK")] rfl⟩
